import Mathlib

/-!
Verification of the Visual Library metadata client (python-visual-library).

This file shallowly embeds the parts of the repository that the checked
properties talk about:

* a tree model of the parsed markup documents, together with the
  BeautifulSoup-style search operations the source uses
  (find / find_all by tag and attribute filters, text extraction,
  parent access, structural tag equality);
* the type classifier (get_object_type_from_xml and its helpers),
* the publication-date extraction with its two regular expressions,
* the numeric-normalization helper (remove_letters_from_alphanumeric_string),
* the ALTO transcription parser,
* the per-page file-resource resolution,
* the importer's section-file resolution,
* the lazy, cached collection accessors and the read-only setters.

Python exceptions are modelled with Except String; an Except.error value
corresponds to an exception propagating out of the modelled call.
Machine details that no checked property touches (timestamp parsing of a
file's creation date) are kept as the raw attribute strings.
-/

/-! ## Markup tree model

The source hands all documents to BeautifulSoup and only ever uses:
find / find_all with a tag name, an attribute-equality filter, or an
attribute-in-list filter; the .text property (concatenation of all text
descendants in document order); .get for attributes; .children; .parent;
and structural tag equality (bs4 compares two tags by name, attributes
and contents). Attributes are modelled as an ordered association list;
the first binding of a name wins. -/

inductive Xml where
  | elem (tag : String) (attrs : List (String × String)) (children : List Xml)
  | text (s : String)
deriving Repr

mutual
/-- Structural tag equality, as used by bs4 for Tag comparison: same name,
same attributes and the same contents, recursively. -/
def Xml.beq : Xml → Xml → Bool
  | .text a, .text b => a == b
  | .elem t1 a1 c1, .elem t2 a2 c2 => t1 == t2 && a1 == a2 && Xml.beqList c1 c2
  | _, _ => false

def Xml.beqList : List Xml → List Xml → Bool
  | [], [] => true
  | x :: xs, y :: ys => Xml.beq x y && Xml.beqList xs ys
  | _, _ => false
end

instance : BEq Xml := ⟨Xml.beq⟩

/-- The attribute list of a node (empty for text nodes). -/
def Xml.attrList : Xml → List (String × String)
  | .elem _ attrs _ => attrs
  | .text _ => []

/-- Python side: tag.get(name); None when the attribute is absent. -/
def Xml.getAttr (x : Xml) (name : String) : Option String :=
  (x.attrList.find? (fun p => p.1 == name)).map Prod.snd

/-- Python side: tag.get(name, default). -/
def Xml.getAttrD (x : Xml) (name dflt : String) : String :=
  (x.getAttr name).getD dflt

/-- Direct children of a node (bs4 .children, text nodes included). -/
def Xml.childNodes : Xml → List Xml
  | .elem _ _ cs => cs
  | .text _ => []

def Xml.isElem : Xml → Bool
  | .elem _ _ _ => true
  | .text _ => false

mutual
/-- All descendants of a node in document (preorder) order, each paired
with its direct parent. bs4 find / find_all search exactly this list. -/
def Xml.descWP : Xml → List (Xml × Xml)
  | .text _ => []
  | .elem t a cs => Xml.descWPList (.elem t a cs) cs

def Xml.descWPList (p : Xml) : List Xml → List (Xml × Xml)
  | [] => []
  | c :: rest => (c, p) :: (Xml.descWP c ++ Xml.descWPList p rest)
end

/-- All descendants in document order. -/
def Xml.descendants (x : Xml) : List Xml :=
  x.descWP.map Prod.fst

/-- bs4 .text: concatenation of every text descendant, in document order. -/
def Xml.innerText : Xml → String
  | .text s => s
  | .elem t a cs =>
      String.join ((Xml.descWP (.elem t a cs)).filterMap
        (fun p => match p.1 with | .text s => some s | _ => none))

/-- bs4 find_all(predicate): every matching descendant, document order. -/
def Xml.findAll (x : Xml) (p : Xml → Bool) : List Xml :=
  x.descendants.filter p

/-- bs4 find(predicate): the first matching descendant, or None. -/
def Xml.findFirst (x : Xml) (p : Xml → Bool) : Option Xml :=
  (x.findAll p).head?

/-- bs4 find_all(..., recursive=False): matching direct children only. -/
def Xml.findAllTop (x : Xml) (p : Xml → Bool) : List Xml :=
  x.childNodes.filter p

/-- Tag-name filter (find('header'), find_all('setspec'), ...). -/
def hasTag (t : String) (x : Xml) : Bool :=
  match x with
  | .elem tg _ _ => tg == t
  | .text _ => false

/-- Tag-name-in-list filter (find_all(tag-name list)). -/
def hasTagIn (ts : List String) (x : Xml) : Bool :=
  match x with
  | .elem tg _ _ => ts.contains tg
  | .text _ => false

/-- Attribute-equality filter (attrs with a single string value). -/
def hasAttrVal (name val : String) (x : Xml) : Bool :=
  x.getAttr name == some val

/-- Attribute-in-list filter (attrs with a list value, as in the section
type allow-list). -/
def hasAttrValIn (name : String) (vals : List String) (x : Xml) : Bool :=
  match x.getAttr name with
  | some v => vals.contains v
  | none => false

/-- Python substring test: listPrefixEq n h is true when n starts h. -/
def listPrefixEq : List Char → List Char → Bool
  | [], _ => true
  | _ :: _, [] => false
  | a :: as, b :: bs => a == b && listPrefixEq as bs

/-- Python needle in hay for strings. -/
def strContainsSub (hay needle : String) : Bool :=
  (List.range (hay.toList.length + 1)).any
    (fun i => listPrefixEq needle.toList (hay.toList.drop i))

/-! ## remove_letters_from_alphanumeric_string (VisualLibrary.py, 38-54)

The source calls re.sub(r'\D+', '', string, re.MULTILINE). The fourth
positional parameter of re.sub is the replacement COUNT, not the flag
set, and re.MULTILINE has the integer value 8 - so only the first 8
maximal runs of non-digit characters are removed; any later runs stay
in the result. -/

/-- One left-to-right pass of re.sub(pattern \D+, replacement empty,
count): count is the number of maximal non-digit runs still allowed to
be deleted, inRun notes whether the previous character belonged to a
run that is being deleted. -/
def subNonDigitGo (count : Nat) (inRun : Bool) (used : Nat) :
    List Char → List Char
  | [] => []
  | c :: cs =>
      if c.isDigit then c :: subNonDigitGo count false used cs
      else
        let used' := if inRun then used else used + 1
        if used' ≤ count then subNonDigitGo count true used' cs
        else c :: subNonDigitGo count true used' cs

/-- re.sub(r'\D+', '', s, count). -/
def pyReSubNonDigit (count : Nat) (s : String) : String :=
  String.mk (subNonDigitGo count false 0 s.toList)

/-- Embeds remove_letters_from_alphanumeric_string: None passes through;
otherwise re.sub(r'\D+', '', string, re.MULTILINE), where re.MULTILINE
(= 8) occupies the count parameter. -/
def remove_letters_from_alphanumeric_string : Option String → Option String
  | none => none
  | some s => some (pyReSubNonDigit 8 s)

/-! ## Read-only property setters (VisualLibrary.py, 27-28 and the
articles / volumes / issues / full_text / full_text_xml / thumbnail /
image_min/default/max_resolution setters)

Every one of those setters has the single-statement body
function_is_read_only(). That helper's body is the bare expression
statement Exception('This element may not be modified! Read only!'):
it constructs the exception object and immediately discards it - there
is no raise - so the helper, and with it every setter, returns normally
and the assignment is silently ignored. -/

def read_only_exception_message : String :=
  "This element may not be modified! Read only!"

/-- Embeds function_is_read_only. The exception value is built (the let
binding) but never raised, so the call succeeds. -/
def function_is_read_only : Except String Unit :=
  let _exceptionValue := read_only_exception_message
  Except.ok ()

/-- Embeds the body shared by all read-only property setters: call
function_is_read_only, propagate whatever it raises, leave the stored
value untouched and ignore the assigned value. -/
def read_only_setter_assign {α β : Type} (stored : α) (_val : β) :
    Except String α :=
  match function_is_read_only with
  | .error e => .error e
  | .ok () => .ok stored

/-! ## Type classifier (VisualLibrary.py, 848-946)

The classifier maps a response document and an external id to one of the
four domain types. Python class objects (Journal, Volume, Issue,
Article) are modelled by the enumeration VLType; raising is modelled by
Except.error. -/

inductive VLType where
  | journal
  | volume
  | issue
  | article
deriving Repr, DecidableEq

/-- Embeds the VL_OBJECT_TYPES dictionary (VisualLibrary.py, 852-860).
Exactly these seven keys exist in the source; every other value,
including the section type marker "document", is unmapped. -/
def VL_OBJECT_TYPES : String → Option VLType
  | "article" => some .article
  | "book" => some .volume
  | "journal" => some .journal
  | "journal_issue" => some .issue
  | "journal_volume" => some .volume
  | "multivolumework" => some .journal
  | "periodical" => some .journal
  | _ => none

/-- Embeds get_xml_header_from_vl_response: find the first header
element of the response. -/
def get_xml_header_from_vl_response (doc : Xml) : Option Xml :=
  doc.findFirst (hasTag "header")

/-- The loop body of get_object_type_from_xml_header: walk the setspec
elements in document order and return the first whose text has a
mapping; unmapped values are skipped. -/
def firstMappedType : List Xml → Option VLType
  | [] => none
  | s :: rest =>
      match VL_OBJECT_TYPES s.innerText with
      | some t => some t
      | none => firstMappedType rest

/-- Embeds get_object_type_from_xml_header (VisualLibrary.py, 869-882). -/
def get_object_type_from_xml_header (hdr : Xml) : Option VLType :=
  firstMappedType (hdr.findAll (hasTag "setspec"))

/-- Embeds is_author_in_metadata (VisualLibrary.py, 885-891): the first
mods:roleterm with authority marcrelator must exist and read aut or
asn. -/
def is_author_in_metadata (metadata : Xml) : Bool :=
  match metadata.findFirst
      (fun x => hasTag "mods:roleterm" x && hasAttrVal "authority" "marcrelator" x) with
  | none => false
  | some role => role.innerText == "aut" || role.innerText == "asn"

/-- Embeds has_pages (VisualLibrary.py, 933-934): a mods:extent element
with unit page exists in the metadata block. -/
def has_pages (metadata : Xml) : Bool :=
  (metadata.findFirst
      (fun x => hasTag "mods:extent" x && hasAttrVal "unit" "page" x)).isSome

/-- The section type allow-list
(MetsImporter.ATTRIBUTE_FILTER_FOR_SECTIONS, importer.py, 170-172). -/
def sectionTypeAllowList : List String :=
  ["periodical", "volume", "issue", "article", "section", "document", "illustration"]

/-- A mets:div whose type attribute is in the allow-list. -/
def isAllowListedDiv (x : Xml) : Bool :=
  hasTag "mets:div" x && hasAttrValIn "type" sectionTypeAllowList x

/-- The sections list built in get_object_type_from_xml (line 907):
every allow-listed mets:div of the whole document in document order,
each paired with its direct parent (the loop below compares parents). -/
def findAllowListedSectionsWP (doc : Xml) : List (Xml × Xml) :=
  doc.descWP.filter (fun p => isAllowListedDiv p.1)

/-- The loop of _get_nesting_deepness_for_section (VisualLibrary.py,
937-946): the counter is incremented for every section until either the
searched id is a substring of the section's id attribute or the
previous section's parent equals this section's parent (a sibling pair
stops the scan). A section without an id attribute makes the Python
membership test raise a TypeError. -/
def nestingDeepnessGo (idStr : String) (lastParent : Option Xml) (acc : Nat) :
    List (Xml × Xml) → Except String Nat
  | [] => .ok acc
  | (sec, par) :: rest =>
      match sec.getAttr "id" with
      | none => .error "TypeError: argument of type NoneType is not iterable"
      | some sid =>
          if strContainsSub sid idStr || lastParent == some par then .ok (acc + 1)
          else nestingDeepnessGo idStr (some par) (acc + 1) rest

/-- Embeds _get_nesting_deepness_for_section. -/
def get_nesting_deepness_for_section (sections : List (Xml × Xml))
    (id_search_string : String) : Except String Nat :=
  nestingDeepnessGo id_search_string none 0 sections

/-- Embeds subsections_have_resource_pointer (VisualLibrary.py,
924-930): locate the element with id log concatenated with the id (an
absent element makes the subsequent find_all raise an AttributeError),
collect its allow-listed-type descendants (any tag name), and test
whether any of them has a mets:mptr descendant. -/
def subsections_have_resource_pointer (doc : Xml) (vl_id : String) :
    Except String Bool :=
  match doc.findFirst (hasAttrVal "id" ("log" ++ vl_id)) with
  | none => .error "AttributeError: NoneType object has no attribute find_all"
  | some own =>
      .ok ((own.findAll (hasAttrValIn "type" sectionTypeAllowList)).any
        (fun s => (s.findFirst (hasTag "mets:mptr")).isSome))

/-- The metadata lookup of get_object_type_from_xml (line 901): the
mets:dmdsec whose id is md concatenated with the external id. -/
def findMetadataSection (doc : Xml) (vl_id : String) : Option Xml :=
  doc.findFirst (fun x => hasTag "mets:dmdsec" x && hasAttrVal "id" ("md" ++ vl_id) x)

/-- The part of get_object_type_from_xml after the header stage
(VisualLibrary.py, 901-921): author-role plus page-extent first, then
the nesting-depth heuristic over the allow-listed sections, and a fatal
TypeError when no such section exists. A missing metadata block makes
is_author_in_metadata raise an AttributeError on None. -/
def classifyWithoutHeader (doc : Xml) (vl_id : String) : Except String VLType :=
  match findMetadataSection doc vl_id with
  | none => .error "AttributeError: NoneType object has no attribute find"
  | some metadata =>
      if is_author_in_metadata metadata && has_pages metadata then .ok .article
      else
        let sections := findAllowListedSectionsWP doc
        if sections.isEmpty then
          .error ("TypeError: For the given ID " ++ vl_id ++
            " no appropriate Type could be found!")
        else
          match get_nesting_deepness_for_section sections vl_id with
          | .error e => .error e
          | .ok d =>
              if d = 1 then .ok .journal
              else if 3 ≤ d then .ok .issue
              else
                match subsections_have_resource_pointer doc vl_id with
                | .error e => .error e
                | .ok b => if !b then .ok .article else .ok .volume

/-- Embeds get_object_type_from_xml (VisualLibrary.py, 894-921): the
header stage is consulted first and, when it produces a type, that type
is returned unconditionally; a response without a header element makes
get_object_type_from_xml_header raise an AttributeError on None. -/
def get_object_type_from_xml (doc : Xml) (vl_id : String) :
    Except String VLType :=
  match get_xml_header_from_vl_response doc with
  | none => .error "AttributeError: NoneType object has no attribute find_all"
  | some header =>
      match get_object_type_from_xml_header header with
      | some t => .ok t
      | none => classifyWithoutHeader doc vl_id

/-! ## Theorems for claims C9, C4, C10 -/

/-- Claim C9: the numeric-normalization function behaves as claimed on the
three quoted inputs, but it does not strip all non-digit characters from
every input: re.MULTILINE (= 8) is passed in the count slot of re.sub,
so only the first 8 maximal non-digit runs are removed. On an input with
ten non-digit runs the last two survive, contradicting the universal part
of the claim (and the function's own docstring). -/
theorem c9_remove_letters_count_capped :
    remove_letters_from_alphanumeric_string (some "1071953)") = some "1071953" ∧
    remove_letters_from_alphanumeric_string (some "107 (1953)") = some "1071953" ∧
    remove_letters_from_alphanumeric_string (some "1. Lieferung") = some "1" ∧
    remove_letters_from_alphanumeric_string (some "1a2b3c4d5e6f7g8h9i0j") =
      some "123456789i0j" ∧
    ("123456789i0j" : String) ≠ "1234567890" :=
  ⟨rfl, rfl, rfl, rfl, by decide⟩

/-- Claim C4: assigning to any of the read-only computed fields calls
function_is_read_only, which never raises (the Exception object is
created and discarded), so the assignment returns successfully and
leaves the stored value unchanged - no exception reaches the caller,
contradicting the claim that a usage error is signalled. -/
theorem c4_read_only_setter_silently_ignores {α β : Type} (stored : α) (val : β) :
    read_only_setter_assign stored val = Except.ok stored := rfl

/-- The setspec loop returns the head of the mapped subsequence. -/
theorem firstMappedType_eq_head (l : List Xml) :
    firstMappedType l =
      (l.filterMap (fun s => VL_OBJECT_TYPES s.innerText)).head? := by
  induction l with
  | nil => rfl
  | cons x xs ih =>
      simp only [firstMappedType, List.filterMap_cons]
      cases h : VL_OBJECT_TYPES x.innerText with
      | none => simpa [h] using ih
      | some t => simp [h]

/-- Claim C10: with several setspec values in the response header, the
header stage returns the type mapped from the first value in document
order that has a known mapping (unmapped values are skipped without
error, head? of the filterMap), and when no value maps the header stage
returns none and get_object_type_from_xml proceeds with the later
heuristics instead of raising. -/
theorem c10_header_first_known_setspec :
    (∀ hdr : Xml, get_object_type_from_xml_header hdr =
        ((hdr.findAll (hasTag "setspec")).filterMap
          (fun s => VL_OBJECT_TYPES s.innerText)).head?) ∧
    (∀ (doc hdr : Xml) (vl_id : String),
        get_xml_header_from_vl_response doc = some hdr →
        get_object_type_from_xml_header hdr = none →
        get_object_type_from_xml doc vl_id = classifyWithoutHeader doc vl_id) := by
  constructor
  · intro hdr
    exact firstMappedType_eq_head (hdr.findAll (hasTag "setspec"))
  · intro doc hdr vl_id hfind hnone
    simp only [get_object_type_from_xml, hfind, hnone]

/-- A header carrying one unmapped and two mapped setspec values. -/
def c10Hdr : Xml :=
  .elem "header" [] [
    .elem "setspec" [] [.text "document"],
    .elem "setspec" [] [.text "journal_issue"],
    .elem "setspec" [] [.text "periodical"]]

/-- A header whose only setspec value has no mapping. -/
def c10FallbackHdr : Xml :=
  .elem "header" [] [.elem "setspec" [] [.text "oai_dc"]]

/-- A document whose header maps no setspec value, so classification
falls through to the section heuristics. -/
def c10FallbackDoc : Xml :=
  .elem "[document]" [] [
    c10FallbackHdr,
    .elem "mets:dmdsec" [("id", "md2")] [],
    .elem "mets:structmap" [("type", "LOGICAL")] [
      .elem "mets:div" [("type", "periodical"), ("id", "log2")] []]]

theorem c10_header_first_known_setspec_witness :
    get_object_type_from_xml_header c10Hdr =
      ((c10Hdr.findAll (hasTag "setspec")).filterMap
        (fun s => VL_OBJECT_TYPES s.innerText)).head? ∧
    get_object_type_from_xml c10FallbackDoc "2" =
      classifyWithoutHeader c10FallbackDoc "2" ∧
    get_object_type_from_xml_header c10Hdr = some VLType.issue :=
  ⟨c10_header_first_known_setspec.1 c10Hdr,
   c10_header_first_known_setspec.2 c10FallbackDoc c10FallbackHdr "2" rfl rfl,
   rfl⟩

/-! ## Theorems for claims C1 and C2 -/

/-- A document whose header carries the setspec value "document" and
whose structure classifies as Journal by the depth heuristic. The
VL_OBJECT_TYPES dictionary has no "document" key, so the header stage
maps nothing and the heuristics decide. -/
def c1Doc : Xml :=
  .elem "[document]" [] [
    .elem "header" [] [.elem "setspec" [] [.text "document"]],
    .elem "mets:dmdsec" [("id", "md1")] [],
    .elem "mets:structmap" [("type", "LOGICAL")] [
      .elem "mets:div" [("type", "periodical"), ("id", "log1")] []]]

/-- Claim C1, counterexample: the claim lists "document" among the known
header mappings (document to Article), but the dictionary in the source
has no such key; a document whose header says "document" is classified
by the structural heuristics instead - here as Journal, not Article. -/
theorem c1_setspec_document_counterexample :
    VL_OBJECT_TYPES "document" = none ∧
    get_object_type_from_xml c1Doc "1" = Except.ok VLType.journal ∧
    VLType.journal ≠ VLType.article :=
  ⟨rfl, rfl, by decide⟩

/-- Claim C1 (amended): for every document whose response header carries
a type-specification value with a known mapping (periodical, journal,
multivolumework to Journal; journal_volume, book to Volume;
journal_issue to Issue; article to Article - the value "document" has no
mapping), classification returns the mapped type regardless of the rest
of the document; only when no header value maps does it fall back to the
author-role-plus-page-extent rule and then the depth heuristic, in that
order (both embodied in classifyWithoutHeader). -/
theorem c1_header_always_wins (doc hdr : Xml) (vl_id : String)
    (hfind : get_xml_header_from_vl_response doc = some hdr) :
    (∀ t : VLType, get_object_type_from_xml_header hdr = some t →
        get_object_type_from_xml doc vl_id = Except.ok t) ∧
    (get_object_type_from_xml_header hdr = none →
        get_object_type_from_xml doc vl_id = classifyWithoutHeader doc vl_id) := by
  constructor
  · intro t ht
    simp only [get_object_type_from_xml, hfind, ht]
  · intro hn
    simp only [get_object_type_from_xml, hfind, hn]

/-- A header with a mapped setspec value (periodical, so Journal). -/
def c1WitnessHdr : Xml :=
  .elem "header" [] [.elem "setspec" [] [.text "periodical"]]

/-- A document whose header says Journal while its structural nesting
(depth 3 for the id 5) would say Issue. -/
def c1WitnessDoc : Xml :=
  .elem "[document]" [] [
    c1WitnessHdr,
    .elem "mets:dmdsec" [("id", "md5")] [],
    .elem "mets:structmap" [("type", "LOGICAL")] [
      .elem "mets:div" [("type", "periodical"), ("id", "logA")] [
        .elem "mets:div" [("type", "volume"), ("id", "logB")] [
          .elem "mets:div" [("type", "issue"), ("id", "log5")] []]]]]

theorem c1_header_always_wins_witness :
    get_object_type_from_xml c1WitnessDoc "5" = Except.ok VLType.journal ∧
    classifyWithoutHeader c1WitnessDoc "5" = Except.ok VLType.issue :=
  ⟨(c1_header_always_wins c1WitnessDoc c1WitnessHdr "5" rfl).1 VLType.journal rfl,
   rfl⟩

/-- Claim C2: when the header stage maps nothing and the id's metadata
block does not carry both an author-role person and a page extent,
get_object_type_from_xml classifies by the nesting-depth count over the
allow-listed sections: depth 1 Journal, depth at least 3 Issue, depth 2
without a resource-pointer subsection Article, depth 2 with one Volume;
and with no allow-listed sections at all it raises a TypeError instead
of returning a type. -/
theorem c2_depth_heuristic_classification (doc hdr md : Xml) (vl_id : String)
    (hfind : get_xml_header_from_vl_response doc = some hdr)
    (hnone : get_object_type_from_xml_header hdr = none)
    (hmd : findMetadataSection doc vl_id = some md)
    (hnotart : (is_author_in_metadata md && has_pages md) = false) :
    (findAllowListedSectionsWP doc = [] →
        get_object_type_from_xml doc vl_id =
          Except.error ("TypeError: For the given ID " ++ vl_id ++
            " no appropriate Type could be found!")) ∧
    (∀ d : Nat,
        get_nesting_deepness_for_section (findAllowListedSectionsWP doc) vl_id =
          Except.ok d →
        findAllowListedSectionsWP doc ≠ [] →
        ((d = 1 → get_object_type_from_xml doc vl_id = Except.ok VLType.journal) ∧
         (3 ≤ d → get_object_type_from_xml doc vl_id = Except.ok VLType.issue) ∧
         (d = 2 → subsections_have_resource_pointer doc vl_id = Except.ok false →
            get_object_type_from_xml doc vl_id = Except.ok VLType.article) ∧
         (d = 2 → subsections_have_resource_pointer doc vl_id = Except.ok true →
            get_object_type_from_xml doc vl_id = Except.ok VLType.volume))) := by
  have hmain : get_object_type_from_xml doc vl_id = classifyWithoutHeader doc vl_id := by
    simp only [get_object_type_from_xml, hfind, hnone]
  constructor
  · intro hempty
    rw [hmain]
    simp only [classifyWithoutHeader, hmd, hnotart, hempty]
    simp
  · intro d hd hne
    have hife : (findAllowListedSectionsWP doc).isEmpty = false := by
      cases h : findAllowListedSectionsWP doc with
      | nil => exact absurd h hne
      | cons a l => rfl
    refine ⟨?_, ?_, ?_, ?_⟩
    · intro hd1
      rw [hmain]
      simp only [classifyWithoutHeader, hmd, hnotart, hife, hd, hd1]
      simp
    · intro hd3
      rw [hmain]
      simp only [classifyWithoutHeader, hmd, hnotart, hife, hd]
      rw [if_neg (show ¬ d = 1 by omega), if_pos hd3]
      simp
    · intro hd2 hsub
      rw [hmain]
      simp only [classifyWithoutHeader, hmd, hnotart, hife, hd, hd2, hsub]
      simp
    · intro hd2 hsub
      rw [hmain]
      simp only [classifyWithoutHeader, hmd, hnotart, hife, hd, hd2, hsub]
      simp

/-- A header with no setspec values at all (so the header stage maps
nothing). -/
def c2Hdr : Xml := .elem "header" [] []

/-- The metadata block of the id 7, carrying neither an author role nor
a page extent. -/
def c2Md : Xml := .elem "mets:dmdsec" [("id", "md7")] []

/-- A document where the section of id 7 sits at depth 2 and has a
subsection carrying a resource pointer, so the heuristic says Volume. -/
def c2Doc : Xml :=
  .elem "[document]" [] [
    c2Hdr, c2Md,
    .elem "mets:structmap" [("type", "LOGICAL")] [
      .elem "mets:div" [("type", "periodical"), ("id", "log9")] [
        .elem "mets:div" [("type", "volume"), ("id", "log7")] [
          .elem "mets:div" [("type", "issue"), ("id", "log8")] [
            .elem "mets:mptr" [("loctype", "URL")] []]]]]]

theorem c2_depth_heuristic_classification_witness :
    get_object_type_from_xml c2Doc "7" = Except.ok VLType.volume ∧
    get_nesting_deepness_for_section (findAllowListedSectionsWP c2Doc) "7" =
      Except.ok 2 :=
  ⟨((c2_depth_heuristic_classification c2Doc c2Hdr c2Md "7" rfl rfl rfl rfl).2 2 rfl
      (by intro h; exact absurd (congrArg List.length h) (by decide))).2.2.2 rfl rfl,
   rfl⟩

/-! ## Publication-date extraction (VisualLibrary.py, 328-351, 423-429,
and the year-only overrides at 581-583, 610-612, 839-841)

The source compiles two regular expressions and applies them with
re.match (anchored at position 0):

* re_date_period, pattern (?<!.)[0-9]{4}-(?:[0-9]{4})? - four digits, a
  dash, optionally four more digits;
* re_year_only, pattern \D*[0-9]{4}(?!-)\D* - any leading non-digits,
  four digits NOT followed by a dash, then any non-digits. Because the
  leading \D* cannot consume digits, the four digits are always the
  first digits of the text, and the negative lookahead makes the whole
  match fail when the fourth digit is followed by a dash: the text
  1937-1954 matches neither pattern in year-only mode. -/

/-- re_date_period.match(s): the matched substring, or none. -/
def matchDatePeriod (s : String) : Option String :=
  match s.toList with
  | d1 :: d2 :: d3 :: d4 :: '-' :: rest =>
      if d1.isDigit && d2.isDigit && d3.isDigit && d4.isDigit then
        match rest with
        | e1 :: e2 :: e3 :: e4 :: _ =>
            if e1.isDigit && e2.isDigit && e3.isDigit && e4.isDigit then
              some (String.mk [d1, d2, d3, d4, '-', e1, e2, e3, e4])
            else some (String.mk [d1, d2, d3, d4, '-'])
        | _ => some (String.mk [d1, d2, d3, d4, '-'])
      else none
  | _ => none

/-- re_year_only.match(s): the matched substring, or none. The leading
non-digit run, four digits whose successor is not a dash, and the
trailing non-digit run. -/
def matchYearOnly (s : String) : Option String :=
  let cs := s.toList
  let lead := cs.takeWhile (fun c => !c.isDigit)
  match cs.dropWhile (fun c => !c.isDigit) with
  | d1 :: d2 :: d3 :: d4 :: rest =>
      if d1.isDigit && d2.isDigit && d3.isDigit && d4.isDigit then
        match rest with
        | [] => some (String.mk (lead ++ [d1, d2, d3, d4]))
        | c :: _ =>
            if c = '-' then none
            else some (String.mk (lead ++ [d1, d2, d3, d4] ++
              rest.takeWhile (fun ch => !ch.isDigit)))
      else none
  | _ => none

/-- Embeds _get_date_elements_from_metadata: the direct mods:origininfo
children of the mods:mods element (recursive=False), or, when there are
none, every mods:part element of the whole metadata block; a missing
mods:mods element raises an AttributeError on None. -/
def get_date_elements_from_metadata (metadata : Xml) : Except String (List Xml) :=
  match metadata.findFirst (hasTag "mods:mods") with
  | none => .error "AttributeError: NoneType object has no attribute find_all"
  | some modsData =>
      let rel := modsData.findAllTop (hasTag "mods:origininfo")
      .ok (if rel.isEmpty then metadata.findAll (hasTag "mods:part") else rel)

/-- The scan order of the date candidates: for each origin element in
order, every mods:dateissued or mods:date descendant in document order,
taken as its text. -/
def dateElementTexts (origins : List Xml) : List String :=
  (origins.flatMap
    (fun o => o.findAll (hasTagIn ["mods:dateissued", "mods:date"]))).map
    Xml.innerText

/-- The candidate loop of _extract_publication_date_from_metadata: the
period pattern is consulted only when year_only is false; otherwise the
year-only pattern, whose match is passed through
remove_letters_from_alphanumeric_string; the first success stops the
scan, and no match at all leaves the publication date unset. -/
def firstDateMatch (year_only : Bool) : List String → Option String
  | [] => none
  | t :: rest =>
      match (if year_only then none else matchDatePeriod t) with
      | some p => some p
      | none =>
          match matchYearOnly t with
          | some y => remove_letters_from_alphanumeric_string (some y)
          | none => firstDateMatch year_only rest

/-- Embeds _extract_publication_date_from_metadata: the resulting value
of self.publication_date (none when nothing matched). -/
def extract_publication_date_from_metadata (year_only : Bool) (metadata : Xml) :
    Except String (Option String) :=
  match get_date_elements_from_metadata metadata with
  | .error e => .error e
  | .ok origins => .ok (firstDateMatch year_only (dateElementTexts origins))

/-- The year_only argument per concrete type: the base class default
(used by Journal) is false; Volume, Issue and Article override the
method with year_only = true. -/
def year_only_for_type : VLType → Bool
  | .journal => false
  | _ => true

/-- Date extraction as run by each concrete type's constructor. -/
def extract_publication_date_for_type (t : VLType) (metadata : Xml) :
    Except String (Option String) :=
  extract_publication_date_from_metadata (year_only_for_type t) metadata

/-- An origin-info element whose single date candidate reads 1937-1954. -/
def c3Origin : Xml :=
  .elem "mods:origininfo" [] [
    .elem "mods:dateissued" [("keydate", "yes")] [.text "1937-1954"]]

/-- A metadata block whose only date candidate reads 1937-1954. -/
def c3Metadata : Xml :=
  .elem "mets:dmdsec" [("id", "md3")] [
    .elem "mods:mods" [] [c3Origin]]

/-- Claim C3, counterexample: on the candidate text 1937-1954 with
year-only forced (Volume, Issue, Article), the year-only pattern fails
(the fourth digit is followed by a dash, which the negative lookahead
rejects) and the period pattern is skipped, so no publication date at
all is extracted - not the claimed "1937". -/
theorem c3_year_only_duration_counterexample :
    extract_publication_date_for_type VLType.volume c3Metadata = Except.ok none ∧
    extract_publication_date_for_type VLType.issue c3Metadata = Except.ok none ∧
    extract_publication_date_for_type VLType.article c3Metadata = Except.ok none ∧
    (none : Option String) ≠ some "1937" :=
  ⟨rfl, rfl, rfl, by decide⟩

/-- Claim C3 (amended): for a date candidate whose text is exactly
1937-1954, a type that does not force year-only (Journal) gets the
literal substring 1937-1954 as publication date; for Volume, Issue and
Article (year-only forced) the candidate matches neither pattern, so no
publication date is extracted from it at all (the field stays unset)
rather than the year "1937". -/
theorem c3_publication_date_duration (md : Xml) (origins : List Xml)
    (h1 : get_date_elements_from_metadata md = Except.ok origins)
    (h2 : dateElementTexts origins = ["1937-1954"]) :
    extract_publication_date_for_type VLType.journal md =
      Except.ok (some "1937-1954") ∧
    (∀ t : VLType, t ≠ VLType.journal →
      extract_publication_date_for_type t md = Except.ok none) := by
  have hj : firstDateMatch false ["1937-1954"] = some "1937-1954" := rfl
  have hv : firstDateMatch true ["1937-1954"] = none := rfl
  constructor
  · simp only [extract_publication_date_for_type, year_only_for_type,
      extract_publication_date_from_metadata, h1, h2, hj]
  · intro t ht
    have hyo : year_only_for_type t = true := by
      cases t
      · exact absurd rfl ht
      · rfl
      · rfl
      · rfl
    simp only [extract_publication_date_for_type, hyo,
      extract_publication_date_from_metadata, h1, h2, hv]

theorem c3_publication_date_duration_witness :
    extract_publication_date_for_type VLType.journal c3Metadata =
      Except.ok (some "1937-1954") ∧
    extract_publication_date_for_type VLType.volume c3Metadata =
      Except.ok none :=
  ⟨(c3_publication_date_duration c3Metadata [c3Origin] rfl rfl).1,
   (c3_publication_date_duration c3Metadata [c3Origin] rfl rfl).2
     VLType.volume (by decide)⟩

/-! ## ALTO transcription parsing (VisualLibrary.py, 748-760)

_parse_alto_xml_to_full_text_string collects every textline element,
maps each of the line's child nodes through extract_text_from_tag
(which returns the content attribute with a single-space default for
element children and falls through - returning None - for text nodes),
joins the tokens of a line with the empty separator, appends a newline
per line, and finally drops the last character of the accumulated
string. A None token makes the join raise a TypeError in Python. -/

/-- Embeds extract_text_from_tag: content attribute with default single
space for element nodes, implicit None for anything else. -/
def extract_text_from_tag (x : Xml) : Option String :=
  if x.isElem then some (x.getAttrD "content" " ") else none

/-- The join of one line's tokens with the empty separator; a None token
raises. -/
def joinTokensGo : List Xml → String → Except String String
  | [], acc => .ok acc
  | c :: cs, acc =>
      match extract_text_from_tag c with
      | some s => joinTokensGo cs (acc ++ s)
      | none => .error "TypeError: sequence item expected str instance, NoneType found"

def joinLineTokens (children : List Xml) : Except String String :=
  joinTokensGo children ""

/-- The accumulation loop over the text lines: previous text, then the
line's joined tokens, then a newline. -/
def altoLinesJoin : List Xml → String → Except String String
  | [], acc => .ok acc
  | l :: rest, acc =>
      match joinLineTokens l.childNodes with
      | .error e => .error e
      | .ok lineText => altoLinesJoin rest (acc ++ lineText ++ "\n")

/-- Python slicing s[:-1]: the string without its last character. -/
def pyDropLastChar (s : String) : String :=
  String.mk s.data.dropLast

/-- Embeds _parse_alto_xml_to_full_text_string. -/
def parse_alto_xml_to_full_text_string (alto : Xml) : Except String String :=
  match altoLinesJoin (alto.findAll (hasTag "textline")) "" with
  | .error e => .error e
  | .ok full => .ok (pyDropLastChar full)

/-- Concatenation of a token list with the empty separator. -/
def concatTokens : List String → String
  | [] => ""
  | s :: rest => s ++ concatTokens rest

/-- The claimed text of one line: element children mapped to their
content attribute (single-space default), non-element children
skipped. -/
def lineTokensText (l : Xml) : String :=
  concatTokens (l.childNodes.filterMap extract_text_from_tag)

/-- Join a list of lines with a newline separator (no trailing
newline). -/
def joinLinesWithNewline : List String → String
  | [] => ""
  | [t] => t
  | t :: ts => t ++ "\n" ++ joinLinesWithNewline ts

/-- Modelled from the claim's words, for comparison with the embedded
parser: one output line per textline element, each line the
concatenation of its element children's content attributes (space when
absent) with non-element children skipped, lines joined with a newline
and no trailing newline. -/
def claimedAltoFullText (alto : Xml) : String :=
  joinLinesWithNewline ((alto.findAll (hasTag "textline")).map lineTokensText)

/-- Every line text followed by a newline, concatenated. -/
def linesConcatNL : List String → String
  | [] => ""
  | t :: ts => t ++ "\n" ++ linesConcatNL ts

/-- An ALTO document whose single text line carries a text child
(whitespace between the word elements). -/
def c7Alto : Xml :=
  .elem "alto" [] [
    .elem "textline" [] [
      .elem "string" [("content", "Hi")] [],
      .text "  "]]

/-- Claim C7, counterexample: a text (non-element) child of a text line
is mapped to None by extract_text_from_tag and the join then raises a
TypeError - the child is not skipped, so parsing fails where the claim
promises the text "Hi". -/
theorem c7_nonelement_child_counterexample :
    parse_alto_xml_to_full_text_string c7Alto =
      Except.error "TypeError: sequence item expected str instance, NoneType found" ∧
    claimedAltoFullText c7Alto = "Hi" :=
  ⟨rfl, rfl⟩

theorem extract_text_of_elem (x : Xml) (h : x.isElem = true) :
    extract_text_from_tag x = some (x.getAttrD "content" " ") := by
  simp [extract_text_from_tag, h]

theorem joinTokensGo_all_elem (cs : List Xml) (h : ∀ c ∈ cs, c.isElem = true) :
    ∀ acc : String,
      joinTokensGo cs acc =
        Except.ok (acc ++ concatTokens (cs.filterMap extract_text_from_tag)) := by
  induction cs with
  | nil => intro acc; simp [joinTokensGo, concatTokens, String.append_empty]
  | cons c cs ih =>
      intro acc
      have hc : c.isElem = true := h c (by simp)
      have hrest : ∀ x ∈ cs, x.isElem = true := fun x hx => h x (by simp [hx])
      rw [joinTokensGo, extract_text_of_elem c hc]
      rw [List.filterMap_cons, extract_text_of_elem c hc]
      simp only [concatTokens]
      rw [ih hrest (acc ++ c.getAttrD "content" " "), String.append_assoc]

theorem altoLinesJoin_all_elem (ls : List Xml)
    (h : ∀ l ∈ ls, ∀ c ∈ l.childNodes, c.isElem = true) :
    ∀ acc : String,
      altoLinesJoin ls acc =
        Except.ok (acc ++ linesConcatNL (ls.map lineTokensText)) := by
  induction ls with
  | nil => intro acc; simp [altoLinesJoin, linesConcatNL, String.append_empty]
  | cons l ls ih =>
      intro acc
      have hl : ∀ c ∈ l.childNodes, c.isElem = true := h l (by simp)
      have hrest : ∀ x ∈ ls, ∀ c ∈ x.childNodes, c.isElem = true :=
        fun x hx => h x (by simp [hx])
      rw [altoLinesJoin, joinLineTokens, joinTokensGo_all_elem l.childNodes hl ""]
      simp only [List.map_cons, linesConcatNL]
      have hline : ("" : String) ++ concatTokens (l.childNodes.filterMap
          extract_text_from_tag) = lineTokensText l := by
        simp [lineTokensText, String.empty_append]
      rw [hline, ih hrest]
      simp [String.append_assoc]

theorem strMkAppend (a : String) (x : List Char) :
    String.mk (a.data ++ x) = a ++ String.mk x := rfl

theorem linesConcatNL_cons_data_ne_nil (t : String) (ts : List String) :
    (linesConcatNL (t :: ts)).data ≠ [] := by
  simp [linesConcatNL, String.data_append]

theorem pyDropLastChar_linesConcatNL (ts : List String) :
    pyDropLastChar (linesConcatNL ts) = joinLinesWithNewline ts := by
  induction ts with
  | nil => rfl
  | cons t ts ih =>
      cases ts with
      | nil =>
          show pyDropLastChar (t ++ "\n" ++ linesConcatNL []) = t
          simp only [linesConcatNL, String.append_empty, pyDropLastChar,
            String.data_append]
          rw [List.dropLast_concat]
      | cons u us =>
          have hne := linesConcatNL_cons_data_ne_nil u us
          show pyDropLastChar (t ++ "\n" ++ linesConcatNL (u :: us)) =
            t ++ "\n" ++ joinLinesWithNewline (u :: us)
          rw [← ih]
          simp only [pyDropLastChar, String.data_append]
          rw [List.dropLast_append_of_ne_nil _ hne, strMkAppend]
          rfl

/-- Claim C7 (amended): for every transcription document in which every
child node of every text line is an element node, the parsed full text
equals the claimed value: per line the concatenation of the content
attributes (single space when absent), lines joined with a newline, no
trailing newline and one output line per source line. A text child
among a line's children instead aborts the parse with a TypeError (it
is mapped to None, not skipped). -/
theorem c7_alto_parse (alto : Xml)
    (h : ∀ l ∈ alto.findAll (hasTag "textline"), ∀ c ∈ l.childNodes, c.isElem = true) :
    parse_alto_xml_to_full_text_string alto =
      Except.ok (claimedAltoFullText alto) := by
  unfold parse_alto_xml_to_full_text_string claimedAltoFullText
  rw [altoLinesJoin_all_elem (alto.findAll (hasTag "textline")) h ""]
  rw [show ∀ s : String, "" ++ s = s from fun s => String.empty_append s]
  show Except.ok (pyDropLastChar (linesConcatNL
      ((alto.findAll (hasTag "textline")).map lineTokensText))) = _
  rw [pyDropLastChar_linesConcatNL]

/-- An ALTO document with two text lines of element children only. -/
def c7WitnessAlto : Xml :=
  .elem "alto" [] [
    .elem "layout" [] [
      .elem "textline" [] [
        .elem "string" [("content", "Ein")] [],
        .elem "sp" [] [],
        .elem "string" [("content", "Wort")] []],
      .elem "textline" [] [
        .elem "string" [("content", "Zeile2")] []]]]

/-- Decidable bridge for the all-children-are-elements hypothesis. -/
theorem allElemOfBool (ls : List Xml)
    (hb : (ls.all (fun l => l.childNodes.all Xml.isElem)) = true) :
    ∀ l ∈ ls, ∀ c ∈ l.childNodes, c.isElem = true := by
  intro l hl c hc
  exact List.all_eq_true.mp (List.all_eq_true.mp hb l hl) c hc

theorem c7_alto_parse_witness :
    parse_alto_xml_to_full_text_string c7WitnessAlto =
      Except.ok (claimedAltoFullText c7WitnessAlto) ∧
    claimedAltoFullText c7WitnessAlto = "Ein Wort\nZeile2" :=
  ⟨c7_alto_parse c7WitnessAlto
     (allElemOfBool (c7WitnessAlto.findAll (hasTag "textline")) (by decide)),
   rfl⟩

/-! ## Per-page file resources (VisualLibrary.py, 615-746; importer.py,
55-129)

A Page keeps the list of its mets:fptr descendants. Each resource
getter looks for the first file pointer whose fileid attribute contains
a fixed marker substring; the pointer's fileid is then resolved against
the document's mets:file elements, and the matched element is parsed
into a File. When no pointer matches, _get_resource_pointer_by_id_substring
returns None and _get_file_from_id_substring immediately calls .get on
it - an AttributeError, not an absent value. When the pointer exists but
no mets:file carries its id, parse_properties_from_xml_element raises an
AttributeError on None which _get_file_from_resource_id converts into a
ValueError. The File's creation timestamp is kept as the raw attribute
string (the source parses it with a fixed format; no checked property
touches it). -/

/-- ASCII lowercase of one character (Python str.lower on the ids the
source handles). -/
def pyLowerChar (c : Char) : Char :=
  if 'A' ≤ c ∧ c ≤ 'Z' then Char.ofNat (c.toNat + 32) else c

/-- Python str.lower. -/
def pyLower (s : String) : String :=
  String.mk (s.data.map pyLowerChar)

structure VLFile where
  mimeType : Option String
  size : Nat
  name : Option String
  created : Option String
  url : Option String
deriving Repr, DecidableEq

/-- The location loop of File.parse_properties_from_xml_element: a
location whose loctype is URL contributes its href (when present); any
other loctype raises a TypeError. -/
def fileUrlFromLocations : List Xml → Option String → Except String (Option String)
  | [], url => .ok url
  | loc :: rest, url =>
      if loc.getAttr "loctype" == some "URL" then
        match loc.getAttr "xlink:href" with
        | some href => fileUrlFromLocations rest (some href)
        | none => fileUrlFromLocations rest url
      else .error "TypeError: The file location type is not implemented!"

/-- Embeds File.parse_properties_from_xml_element: mimetype and size
attributes (size parsed to an integer, absent meaning 0, a non-numeric
value raising a ValueError), the id attribute lowercased as name, the
raw created attribute, and the URL from the mets:flocat elements. -/
def parse_properties_from_xml_element (x : Xml) : Except String VLFile :=
  let mime := x.getAttr "mimetype"
  match (match x.getAttr "size" with
         | none => Except.ok 0
         | some v =>
             match v.toNat? with
             | some n => Except.ok n
             | none => Except.error "ValueError: invalid literal for int()") with
  | .error e => .error e
  | .ok size =>
      let name := (x.getAttr "id").map pyLower
      let created := x.getAttr "created"
      match fileUrlFromLocations (x.findAll (hasTag "mets:flocat")) none with
      | .error e => .error e
      | .ok url => .ok ⟨mime, size, name, created, url⟩

/-- Embeds Page._get_resource_pointer_by_id_substring: the first file
pointer whose fileid attribute (default empty) contains the marker. -/
def get_resource_pointer_by_id_substring (filePointers : List Xml)
    (substring : String) : Option Xml :=
  filePointers.find? (fun fp => strContainsSub (fp.getAttrD "fileid" "") substring)

/-- Embeds Page._get_file_from_resource_id: resolve the id against the
document's mets:file elements; a missing element raises the ValueError
of the except branch, a found element is parsed into a File (whose own
errors propagate). -/
def get_file_from_resource_id (doc : Xml) (resource_id : Option String) :
    Except String VLFile :=
  match doc.findFirst (fun x => hasTag "mets:file" x && (x.getAttr "id" == resource_id)) with
  | none =>
      .error "ValueError: The given XML data refers to an ID that is not given in the data!"
  | some fe => parse_properties_from_xml_element fe

/-- Embeds Page._get_file_from_id_substring: when no pointer matches the
marker, the None return of the pointer lookup is dereferenced with .get
and an AttributeError escapes. -/
def get_file_from_id_substring (doc : Xml) (filePointers : List Xml)
    (substring : String) : Except String VLFile :=
  match get_resource_pointer_by_id_substring filePointers substring with
  | none => .error "AttributeError: NoneType object has no attribute get"
  | some fp => get_file_from_resource_id doc (fp.getAttr "fileid")

/-- The file pointers collected by Page.__init__ (find_all mets:fptr on
the page element). -/
def pageFilePointers (page_element : Xml) : List Xml :=
  page_element.findAll (hasTag "mets:fptr")

/-- The five resource getters of Page, one marker substring each. -/
def page_thumbnail (doc page_element : Xml) : Except String VLFile :=
  get_file_from_id_substring doc (pageFilePointers page_element) "THUMBS"

def page_image_min_resolution (doc page_element : Xml) : Except String VLFile :=
  get_file_from_id_substring doc (pageFilePointers page_element) "MIN"

def page_image_max_resolution (doc page_element : Xml) : Except String VLFile :=
  get_file_from_id_substring doc (pageFilePointers page_element) "MAX"

def page_image_default_resolution (doc page_element : Xml) : Except String VLFile :=
  get_file_from_id_substring doc (pageFilePointers page_element) "DEFAULT"

def page_full_text_file (doc page_element : Xml) : Except String VLFile :=
  get_file_from_id_substring doc (pageFilePointers page_element) "ALTO"

/-- A page division with no file pointers at all. -/
def c5PageNoPointers : Xml :=
  .elem "mets:div" [("type", "page"), ("id", "phys1")] []

def c5DocNoPointers : Xml :=
  .elem "[document]" [] [
    .elem "mets:structmap" [("type", "PHYSICAL")] [c5PageNoPointers]]

/-- A page whose thumbnail pointer references a file id that no
mets:file element defines. -/
def c5PageDangling : Xml :=
  .elem "mets:div" [("type", "page"), ("id", "phys2")] [
    .elem "mets:fptr" [("fileid", "THUMBS_2")] []]

def c5DocDangling : Xml :=
  .elem "[document]" [] [
    .elem "mets:structmap" [("type", "PHYSICAL")] [c5PageDangling],
    .elem "mets:filesec" [] [
      .elem "mets:filegrp" [("use", "DOWNLOAD")] [
        .elem "mets:file" [("id", "OTHER_1")] []]]]

/-- A page whose thumbnail pointer resolves to a defined file. -/
def c5PageGood : Xml :=
  .elem "mets:div" [("type", "page"), ("id", "phys3")] [
    .elem "mets:fptr" [("fileid", "THUMBS_3")] []]

def c5DocGood : Xml :=
  .elem "[document]" [] [
    .elem "mets:structmap" [("type", "PHYSICAL")] [c5PageGood],
    .elem "mets:file" [("id", "THUMBS_3"), ("mimetype", "image/jpeg")] [
      .elem "mets:flocat" [("loctype", "URL"), ("xlink:href", "http://host/128/3")] []]]

/-- Claim C5: the hard-error half holds (dangling file id gives a
ValueError) and a matching pointer with a defined file succeeds; but
when no pointer contains the marker the getter raises an AttributeError
(None has no attribute get) instead of returning an absent value, which
contradicts the claim and the getter docstrings ("Returns None, if no
full text could be found"). -/
theorem c5_page_resource_getter_errors :
    page_thumbnail c5DocNoPointers c5PageNoPointers =
      Except.error "AttributeError: NoneType object has no attribute get" ∧
    page_thumbnail c5DocDangling c5PageDangling =
      Except.error "ValueError: The given XML data refers to an ID that is not given in the data!" ∧
    page_thumbnail c5DocGood c5PageGood =
      Except.ok ⟨some "image/jpeg", 0, some "thumbs_3", none, some "http://host/128/3"⟩ :=
  ⟨rfl, rfl, rfl⟩

/-! ## Importer: section-file resolution (importer.py, 238-263)

MetsImporter._resolve_mets_internal_id_references_for_section finds the
mets:filegrp with USE=DOWNLOAD; then, for each top-level section of the
structure, the nested closure resolve_file_pointers walks that section
and all its subsections, matching every direct file pointer's fileid
against the group by id equality: a match builds a File and adds it to
the subsection, a miss is logged and skipped. The File's languages are
assigned from the name section - the TOP-LEVEL loop variable of the
enclosing for loop - not from the subsection sec the closure is
currently visiting, so every file of the whole subtree inherits the
top-level section's languages. The model threads that top-level
language set unchanged through the recursion, exactly as the closure
does; the full File property parsing is shared with
parse_properties_from_xml_element and is not repeated here, the
attachment records the file id and the assigned languages. The source
keeps languages as a set; it is modelled as the list of its members. -/

inductive SecNode where
  | mk (filePointerIds : List String) (languages : List String)
       (sections : List SecNode)
deriving Repr

def SecNode.filePointerIds : SecNode → List String
  | .mk f _ _ => f

def SecNode.languages : SecNode → List String
  | .mk _ l _ => l

def SecNode.sections : SecNode → List SecNode
  | .mk _ _ s => s

/-- A file attached to a section: the resolved file id and the languages
the importer assigned to the File object. -/
structure SectionFile where
  fileId : String
  languages : List String
deriving Repr, DecidableEq

inductive ResolvedSec where
  | mk (files : List SectionFile) (sections : List ResolvedSec)
deriving Repr

mutual
/-- The closure resolve_file_pointers: direct file pointers whose id the
download group defines become files with the captured top-level
section's languages; unmatched pointers are skipped; subsections are
resolved recursively with the same captured languages. -/
def resolve_file_pointers_for (group : Xml) (topLanguages : List String) :
    SecNode → ResolvedSec
  | .mk fps _ subs =>
      .mk (fps.filterMap (fun fid =>
            match group.findFirst (hasAttrVal "id" fid) with
            | some _ => some ⟨fid, topLanguages⟩
            | none => none))
          (resolve_file_pointers_list group topLanguages subs)

def resolve_file_pointers_list (group : Xml) (topLanguages : List String) :
    List SecNode → List ResolvedSec
  | [] => []
  | s :: rest =>
      resolve_file_pointers_for group topLanguages s ::
        resolve_file_pointers_list group topLanguages rest
end

mutual
/-- The shape of the structure when no DOWNLOAD file group exists:
nothing is resolved anywhere. -/
def secNodeToEmptyResolved : SecNode → ResolvedSec
  | .mk _ _ subs => .mk [] (secNodeListToEmptyResolved subs)

def secNodeListToEmptyResolved : List SecNode → List ResolvedSec
  | [] => []
  | s :: rest => secNodeToEmptyResolved s :: secNodeListToEmptyResolved rest
end

/-- Embeds _resolve_mets_internal_id_references_for_section: find the
first mets:filegrp with use DOWNLOAD; with none, no files are resolved;
otherwise every top-level section subtree is resolved with that
top-level section's languages captured for every file in the subtree. -/
def resolve_mets_internal_id_references (doc : Xml) (topSections : List SecNode) :
    List ResolvedSec :=
  match doc.findFirst (fun x => hasTag "mets:filegrp" x && hasAttrVal "use" "DOWNLOAD" x) with
  | none => secNodeListToEmptyResolved topSections
  | some grp => topSections.map (fun s => resolve_file_pointers_for grp s.languages s)

/-- A download group defining the file ids f1 and f2. -/
def c8Group : Xml :=
  .elem "mets:filegrp" [("use", "DOWNLOAD")] [
    .elem "mets:file" [("id", "f1")] [],
    .elem "mets:file" [("id", "f2")] []]

def c8Doc : Xml := .elem "[document]" [] [c8Group]

/-- A nested section in English whose pointers name one defined file and
one undefined file. -/
def c8Child : SecNode := .mk ["f1", "missing"] ["eng"] []

/-- A German top-level section containing the English subsection. -/
def c8Root : SecNode := .mk ["f2"] ["ger"] [c8Child]

/-- Claim C8: matched pointers yield files on their section and the
unmatched pointer (missing) is silently skipped - but the file attached
to the nested English section carries the languages of the German
top-level section, because the source assigns file.languages from the
outer loop variable section instead of the visited subsection sec. -/
theorem c8_file_languages_topsection :
    resolve_mets_internal_id_references c8Doc [c8Root] =
      [ResolvedSec.mk [⟨"f2", ["ger"]⟩]
        [ResolvedSec.mk [⟨"f1", ["ger"]⟩] []]] ∧
    c8Child.languages = ["eng"] ∧
    (["ger"] : List String) ≠ ["eng"] :=
  ⟨rfl, rfl, by decide⟩

/-! ## Lazy collection accessors and parent resolution
(VisualLibrary.py, 143-151, 434-448, 500-511, 522-537, 551-588, 599-608)

The resolved children of a document are modelled as a list of opaque
objects (their runtime type plus an identity); the environment records
the list that one full resolution pass (_resolve_depending_sections)
yields, and how many network fetches such a pass performs. Each accessor
returns the value, the successor state of the instance's cache fields,
and the number of network fetches this access performed. parent_access
additionally counts the _get_parent invocations to make the once-only
claim checkable. -/

abbrev VLObj := VLType × Nat

/-- get_list_by_type (VisualLibrary.py, 31-35): isinstance filter. -/
def get_list_by_type (container : List VLObj) (t : VLType) : List VLObj :=
  container.filter (fun o => o.1 == t)

/-- What one resolution pass over the document's sections produces, and
what it costs in network fetches. -/
structure ResolveEnv where
  resolved : List VLObj
  fetchCount : Nat

/-- The cache fields _articles and _articles_processed of
ArticleHandlingExportElement (used directly by Issue). -/
structure ArticlesState where
  articlesCache : List VLObj
  articlesProcessed : Bool
deriving Repr, DecidableEq

/-- ArticleHandlingExportElement.articles: resolve once, then cached. -/
def articles_access (env : ResolveEnv) (s : ArticlesState) :
    List VLObj × ArticlesState × Nat :=
  if s.articlesProcessed then (s.articlesCache, s, 0)
  else
    let res := get_list_by_type env.resolved .article
    (res, ⟨res, true⟩, env.fetchCount)

/-- Issue.elements returns self.articles. -/
def issue_elements_access (env : ResolveEnv) (s : ArticlesState) :
    List VLObj × ArticlesState × Nat :=
  articles_access env s

/-- The cache fields of a Journal: _articles/_articles_processed from
ArticleHandlingExportElement plus _volumes/_volumes_processed. -/
structure JournalState where
  articlesCache : List VLObj
  articlesProcessed : Bool
  volumesCache : List VLObj
  volumesProcessed : Bool
deriving Repr, DecidableEq

def journal_articles_access (env : ResolveEnv) (s : JournalState) :
    List VLObj × JournalState × Nat :=
  if s.articlesProcessed then (s.articlesCache, s, 0)
  else
    let res := get_list_by_type env.resolved .article
    (res, { s with articlesCache := res, articlesProcessed := true }, env.fetchCount)

def journal_volumes_access (env : ResolveEnv) (s : JournalState) :
    List VLObj × JournalState × Nat :=
  if s.volumesProcessed then (s.volumesCache, s, 0)
  else
    let res := get_list_by_type env.resolved .volume
    (res, { s with volumesCache := res, volumesProcessed := true }, env.fetchCount)

/-- Journal.elements: self.volumes + self.articles (each lazily
resolved; an unprocessed flag triggers its own resolution pass). -/
def journal_elements_access (env : ResolveEnv) (s : JournalState) :
    List VLObj × JournalState × Nat :=
  let rv := journal_volumes_access env s
  let ra := journal_articles_access env rv.2.1
  (rv.1 ++ ra.1, ra.2.1, rv.2.2 + ra.2.2)

/-- The cache fields of a Volume: _articles/_articles_processed plus
_issues/_sections_resolved. -/
structure VolumeState where
  articlesCache : List VLObj
  articlesProcessed : Bool
  issuesCache : List VLObj
  sectionsResolved : Bool
deriving Repr, DecidableEq

/-- Volume.issues: one combined resolution pass fills _issues and
_articles together and sets both flags. -/
def volume_issues_access (env : ResolveEnv) (s : VolumeState) :
    List VLObj × VolumeState × Nat :=
  if s.sectionsResolved then (s.issuesCache, s, 0)
  else
    let iss := get_list_by_type env.resolved .issue
    let arts := get_list_by_type env.resolved .article
    (iss, ⟨arts, true, iss, true⟩, env.fetchCount)

/-- Volume.articles: touch self.issues, then return _articles. -/
def volume_articles_access (env : ResolveEnv) (s : VolumeState) :
    List VLObj × VolumeState × Nat :=
  let ri := volume_issues_access env s
  (ri.2.1.articlesCache, ri.2.1, ri.2.2)

/-- Volume.elements: self.issues + self.articles. -/
def volume_elements_access (env : ResolveEnv) (s : VolumeState) :
    List VLObj × VolumeState × Nat :=
  let ri := volume_issues_access env s
  let ra := volume_articles_access env ri.2.1
  (ri.1 ++ ra.1, ra.2.1, ri.2.2 + ra.2.2)

/-- What the structural parent of the current section offers: no
mets:mptr of loctype URL at all, a pointer whose URL has no identifier
match, or a pointer whose identifier fetches and constructs an object. -/
inductive ParentPointer where
  | absent
  | withoutId
  | resolvable (obj : VLObj)
deriving Repr, DecidableEq

/-- The outcome of one access to the parent property. -/
structure ParentAccessResult where
  value : Option VLObj
  cached : Option VLObj
  fetches : Nat
  getParentCalls : Nat
deriving Repr, DecidableEq

/-- VisualLibraryExportElement.parent: when _parent is None,
_get_parent() runs again (counted in getParentCalls); it fetches the
parent document only when a pointer with an identifier exists. A None
result is stored back into _parent, i.e. not distinguishable from the
initial state. -/
def parent_access (pp : ParentPointer) (cur : Option VLObj) : ParentAccessResult :=
  match cur with
  | some p => ⟨some p, some p, 0, 0⟩
  | none =>
      match pp with
      | .absent => ⟨none, none, 0, 1⟩
      | .withoutId => ⟨none, none, 0, 1⟩
      | .resolvable obj => ⟨some obj, some obj, 1, 1⟩

/-- Claim C6, counterexample: with no parent resource pointer, the first
access stores None back into _parent, so the second access finds
_parent None again and re-invokes _get_parent - one more resolution
attempt, where the claim promises none. -/
theorem c6_parent_reattempt_counterexample :
    (parent_access ParentPointer.absent none).cached = none ∧
    (parent_access ParentPointer.absent
        (parent_access ParentPointer.absent none).cached).getParentCalls = 1 ∧
    (1 : Nat) ≠ 0 :=
  ⟨rfl, rfl, by decide⟩

/-- Claim C6 (amended): accessing articles, volumes, issues, elements or
parent a second time returns a value equal to the first result, leaves
the cache state unchanged and triggers no network fetch; with no parent
resource pointer the parent stays none with zero network fetches on
every access, although the local _get_parent lookup itself is
re-executed each time (the None outcome is never cached). -/
theorem c6_lazy_caching (env : ResolveEnv) :
    (∀ s : ArticlesState,
      (articles_access env (articles_access env s).2.1).1 =
        (articles_access env s).1 ∧
      (articles_access env (articles_access env s).2.1).2.1 =
        (articles_access env s).2.1 ∧
      (articles_access env (articles_access env s).2.1).2.2 = 0) ∧
    (∀ s : ArticlesState,
      (issue_elements_access env (issue_elements_access env s).2.1).1 =
        (issue_elements_access env s).1 ∧
      (issue_elements_access env (issue_elements_access env s).2.1).2.2 = 0) ∧
    (∀ s : JournalState,
      (journal_articles_access env (journal_articles_access env s).2.1).1 =
        (journal_articles_access env s).1 ∧
      (journal_articles_access env (journal_articles_access env s).2.1).2.1 =
        (journal_articles_access env s).2.1 ∧
      (journal_articles_access env (journal_articles_access env s).2.1).2.2 = 0) ∧
    (∀ s : JournalState,
      (journal_volumes_access env (journal_volumes_access env s).2.1).1 =
        (journal_volumes_access env s).1 ∧
      (journal_volumes_access env (journal_volumes_access env s).2.1).2.1 =
        (journal_volumes_access env s).2.1 ∧
      (journal_volumes_access env (journal_volumes_access env s).2.1).2.2 = 0) ∧
    (∀ s : JournalState,
      (journal_elements_access env (journal_elements_access env s).2.1).1 =
        (journal_elements_access env s).1 ∧
      (journal_elements_access env (journal_elements_access env s).2.1).2.2 = 0) ∧
    (∀ s : VolumeState,
      (volume_issues_access env (volume_issues_access env s).2.1).1 =
        (volume_issues_access env s).1 ∧
      (volume_issues_access env (volume_issues_access env s).2.1).2.1 =
        (volume_issues_access env s).2.1 ∧
      (volume_issues_access env (volume_issues_access env s).2.1).2.2 = 0) ∧
    (∀ s : VolumeState,
      (volume_articles_access env (volume_articles_access env s).2.1).1 =
        (volume_articles_access env s).1 ∧
      (volume_articles_access env (volume_articles_access env s).2.1).2.2 = 0) ∧
    (∀ s : VolumeState,
      (volume_elements_access env (volume_elements_access env s).2.1).1 =
        (volume_elements_access env s).1 ∧
      (volume_elements_access env (volume_elements_access env s).2.1).2.2 = 0) ∧
    (∀ (pp : ParentPointer) (cur : Option VLObj),
      (parent_access pp (parent_access pp cur).cached).value =
        (parent_access pp cur).value ∧
      (parent_access pp (parent_access pp cur).cached).cached =
        (parent_access pp cur).cached ∧
      (parent_access pp (parent_access pp cur).cached).fetches = 0) ∧
    ((parent_access ParentPointer.absent none).value = none ∧
      (parent_access ParentPointer.absent none).fetches = 0) := by
  refine ⟨?_, ?_, ?_, ?_, ?_, ?_, ?_, ?_, ?_, rfl, rfl⟩
  · intro s
    by_cases h : s.articlesProcessed <;> simp [articles_access, h]
  · intro s
    by_cases h : s.articlesProcessed <;>
      simp [issue_elements_access, articles_access, h]
  · intro s
    by_cases h : s.articlesProcessed <;> simp [journal_articles_access, h]
  · intro s
    by_cases h : s.volumesProcessed <;> simp [journal_volumes_access, h]
  · intro s
    by_cases ha : s.articlesProcessed <;> by_cases hv : s.volumesProcessed <;>
      simp [journal_elements_access, journal_articles_access,
        journal_volumes_access, ha, hv]
  · intro s
    by_cases h : s.sectionsResolved <;> simp [volume_issues_access, h]
  · intro s
    by_cases h : s.sectionsResolved <;>
      simp [volume_articles_access, volume_issues_access, h]
  · intro s
    by_cases h : s.sectionsResolved <;>
      simp [volume_elements_access, volume_articles_access, volume_issues_access, h]
  · intro pp cur
    cases cur <;> cases pp <;> simp [parent_access]
